import Mathlib

/-!
Shallow embedding of `src/schema_validator.py`, a schema-migration validation
script that compares two catalogs of tables column by column and reports
PASS/FAIL verdicts per attribute.  The Python script is a single `main`
function; every definition below is translated from a specific region of that
file (line references are given in the doc comments).
-/

namespace SchemaValidator

/-- Audit columns excluded from comparison (`EXCLUDED_COLUMNS`, lines 13-19). -/
def EXCLUDED_COLUMNS : List String :=
  ["CREATED_AT", "UPDATED_AT", "CREATED_BY", "UPDATED_BY", "LOAD_TIMESTAMP"]

/-- One row of `information_schema.columns` as selected by the script
(lines 135-139 / 152-156): name, data type, numeric scale, numeric precision,
character maximum length.  The last four are nullable in the catalog, hence
`Option`. -/
structure ColumnDescriptor where
  COLUMN_NAME : String
  DATA_TYPE : Option String
  NUMERIC_SCALE : Option Nat
  NUMERIC_PRECISION : Option Nat
  CHARACTER_MAXIMUM_LENGTH : Option Nat
deriving DecidableEq, Repr

/-- One side of the comparison: the set of table names in the schema
(lines 37-48) and, for each table, the column descriptors returned by
`information_schema.columns` for it (lines 131-140 / 148-157, before the
audit-column filter). -/
structure Catalog where
  tables : List String
  columns : String → List ColumnDescriptor

/-- Stringification of a nullable integer attribute,
`str(row[k]) if row[k] is not None else "NULL"` (lines 171-173, 186-188). -/
def strOfNatOpt : Option Nat → String
  | some n => Nat.repr n
  | none => "NULL"

/-- Stringification of the data type,
`row["DATA_TYPE"] if row["DATA_TYPE"] else "NULL"` (lines 170, 185).
Python truthiness: both `None` and the empty string are falsy, so a present
empty string is also mapped to the sentinel. -/
def strOfDataType : Option String → String
  | some d => if d = "" then "NULL" else d
  | none => "NULL"

/-- Stringification of an optional table name,
`table1 if table1 is not None else "NULL"` (lines 253-254). -/
def strOfTableOpt : Option String → String
  | some t => t
  | none => "NULL"

/-- `STATUS_COLUMN_NAME` computation (lines 197-204). -/
def status_column_name (n1 n2 : String) : String :=
  if n1 ≠ "NULL" ∧ n2 ≠ "NULL" then
    if n1 = n2 then "PASS" else "FAIL"
  else "FAIL"

/-- `STATUS_DATA_TYPE` computation (lines 206-213). -/
def status_data_type (d1 d2 : String) : String :=
  if d1 ≠ "NULL" ∧ d2 ≠ "NULL" then
    if d1 = d2 then "PASS" else "FAIL"
  else "FAIL"

/-- `STATUS_CHARACTER_MAXIMUM_LENGTH` computation (lines 215-226), including
the directional tolerance branch for the pair 16777216 / 8388607. -/
def status_char_max_length (c1 c2 : String) : String :=
  if c1 ≠ "NULL" ∧ c2 ≠ "NULL" then
    if c1 = c2 then "PASS"
    else if c1 = "16777216" ∧ c2 = "8388607" then "PASS"
    else "FAIL"
  else if c1 = "NULL" ∧ c2 = "NULL" then "PASS"
  else "FAIL"

/-- `STATUS_SCALE` computation (lines 229-238). -/
def status_scale (s1 s2 : String) : String :=
  if s1 ≠ "NULL" ∧ s2 ≠ "NULL" then
    if s1 = s2 then "PASS" else "FAIL"
  else if s1 = "NULL" ∧ s2 = "NULL" then "PASS"
  else "FAIL"

/-- `STATUS_PRECISION` computation (lines 240-249). -/
def status_precision (p1 p2 : String) : String :=
  if p1 ≠ "NULL" ∧ p2 ≠ "NULL" then
    if p1 = p2 then "PASS" else "FAIL"
  else if p1 = "NULL" ∧ p2 = "NULL" then "PASS"
  else "FAIL"

/-- `tableStatus` mirrors lines 121-125:
`if table1 != table2_name: "FAIL" else: "PASS"`. -/
def tableStatus (t1 t2 : Option String) : String :=
  if t1 ≠ t2 then "FAIL" else "PASS"

/-- Table resolution on one side (lines 101-119): membership in the side's
table set determines presence; when present, the recorded name is the exact
table name (the `information_schema` re-query on lines 110-117 filters on
`TABLE_NAME == table_name`, so `rows[0]["TABLE_NAME"]` is `table_name`). -/
def resolveTable (tables : List String) (name : String) : Option String :=
  if tables.contains name then some name else none

/-- The filtered column list for one table: the query filter
`~col("COLUMN_NAME").isin(EXCLUDED_COLUMNS)` (lines 134, 151).  The Python
dict `{row["COLUMN_NAME"]: row for row in table_columns}` built from this list
is modelled by `dictLookup` below (last write wins on duplicate names). -/
def columnsDict (cols : List ColumnDescriptor) : List ColumnDescriptor :=
  cols.filter (fun r => !(EXCLUDED_COLUMNS.contains r.COLUMN_NAME))

/-- Lookup in the keyed dict built on lines 141 / 158: the value stored under
`name` is the last descriptor with that `COLUMN_NAME` (Python dict
comprehension semantics), hence `find?` on the reversed list. -/
def dictLookup (d : List ColumnDescriptor) (name : String) : Option ColumnDescriptor :=
  d.reverse.find? (fun r => r.COLUMN_NAME == name)

/-- The column dict for one side of a table pair (lines 128-160): the filtered
descriptor list when the table is present, empty when absent. -/
def sideDict (cat : Catalog) (t : Option String) : List ColumnDescriptor :=
  match t with
  | some tn => columnsDict (cat.columns tn)
  | none => []

/-- The five stringified per-side values extracted on lines 168-195. -/
structure SideStrings where
  column_name : String
  data_type : String
  scale : String
  precision : String
  char_max_length : String
deriving DecidableEq, Repr

/-- Per-side stringification (lines 168-195): when the column is present, each
attribute is stringified; when absent every field is the sentinel. -/
def sideStrings : Option ColumnDescriptor → SideStrings
  | some row =>
    { column_name := row.COLUMN_NAME
      data_type := strOfDataType row.DATA_TYPE
      scale := strOfNatOpt row.NUMERIC_SCALE
      precision := strOfNatOpt row.NUMERIC_PRECISION
      char_max_length := strOfNatOpt row.CHARACTER_MAXIMUM_LENGTH }
  | none =>
    { column_name := "NULL"
      data_type := "NULL"
      scale := "NULL"
      precision := "NULL"
      char_max_length := "NULL" }

/-- The 18-field result record (`result_schema`, lines 73-92; tuple appended on
lines 252-267). -/
structure ComparisonRow where
  SOURCE_TABLE_NAME : String
  TARGET_TABLE_NAME : String
  STATUS_TABLE_NAME : String
  SOURCE_COLUMN_NAME : String
  TARGET_COLUMN_NAME : String
  STATUS_COLUMN_NAME : String
  SOURCE_DATA_TYPE : String
  TARGET_DATA_TYPE : String
  STATUS_DATA_TYPE : String
  SOURCE_CHARACTER_MAXIMUM_LENGTH : String
  TARGET_CHARACTER_MAXIMUM_LENGTH : String
  STATUS_CHARACTER_MAXIMUM_LENGTH : String
  SOURCE_SCALE : String
  TARGET_SCALE : String
  STATUS_SCALE : String
  SOURCE_PRECISION : String
  TARGET_PRECISION : String
  STATUS_PRECISION : String
deriving DecidableEq, Repr

/-- Assembly of one result tuple (lines 166-267) for one reconciled column
name: extract both sides' strings, compute the five column-level statuses, and
build the record together with the table-level fields. -/
def assembleRow (table1 table2_name : Option String) (status_table : String)
    (d1 d2 : List ColumnDescriptor) (column_name : String) : ComparisonRow :=
  let s1 := sideStrings (dictLookup d1 column_name)
  let s2 := sideStrings (dictLookup d2 column_name)
  { SOURCE_TABLE_NAME := strOfTableOpt table1
    TARGET_TABLE_NAME := strOfTableOpt table2_name
    STATUS_TABLE_NAME := status_table
    SOURCE_COLUMN_NAME := s1.column_name
    TARGET_COLUMN_NAME := s2.column_name
    STATUS_COLUMN_NAME := status_column_name s1.column_name s2.column_name
    SOURCE_DATA_TYPE := s1.data_type
    TARGET_DATA_TYPE := s2.data_type
    STATUS_DATA_TYPE := status_data_type s1.data_type s2.data_type
    SOURCE_CHARACTER_MAXIMUM_LENGTH := s1.char_max_length
    TARGET_CHARACTER_MAXIMUM_LENGTH := s2.char_max_length
    STATUS_CHARACTER_MAXIMUM_LENGTH := status_char_max_length s1.char_max_length s2.char_max_length
    SOURCE_SCALE := s1.scale
    TARGET_SCALE := s2.scale
    STATUS_SCALE := status_scale s1.scale s2.scale
    SOURCE_PRECISION := s1.precision
    TARGET_PRECISION := s2.precision
    STATUS_PRECISION := status_precision s1.precision s2.precision }

/-- Python `sorted` on a list of strings. -/
def sortStrings (l : List String) : List String :=
  l.mergeSort (fun a b => decide (a ≤ b))

/-- `sorted(all_columns)` where `all_columns` is the union of the two dicts'
key sets (lines 163, 166); set union of the key views is modelled as `dedup`
of the concatenated name lists. -/
def allColumns (d1 d2 : List ColumnDescriptor) : List String :=
  sortStrings ((d1.map (fun c => c.COLUMN_NAME) ++ d2.map (fun c => c.COLUMN_NAME)).dedup)

/-- The body of the outer loop for one `table_name` (lines 98-267): resolve the
table on both sides, compute the table status, build both column dicts, and
emit one result record per reconciled column name. -/
def tableRows (src tgt : Catalog) (table_name : String) : List ComparisonRow :=
  let table1 := resolveTable src.tables table_name
  let table2_name := resolveTable tgt.tables table_name
  let d1 := sideDict src table1
  let d2 := sideDict tgt table2_name
  (allColumns d1 d2).map
    (assembleRow table1 table2_name (tableStatus table1 table2_name) d1 d2)

/-- `sorted(all_tables)` where `all_tables = table1_set.union(table2_set)`
(lines 55, 98). -/
def tableUnion (s t : List String) : List String :=
  sortStrings ((s ++ t).dedup)

/-- The full unfiltered result list (`results`, lines 95-267). -/
def runComparison (src tgt : Catalog) : List ComparisonRow :=
  (tableUnion src.tables tgt.tables).flatMap (tableRows src tgt)

/-- `result_df.order_by("SOURCE_TABLE_NAME", "TARGET_TABLE_NAME")` (line 274),
modelled as a stable sort on the two key fields. -/
def orderRows (rows : List ComparisonRow) : List ComparisonRow :=
  rows.mergeSort (fun a b =>
    decide (a.SOURCE_TABLE_NAME < b.SOURCE_TABLE_NAME) ||
    (a.SOURCE_TABLE_NAME == b.SOURCE_TABLE_NAME &&
      decide (a.TARGET_TABLE_NAME ≤ b.TARGET_TABLE_NAME)))

/-- The mismatch predicate of the final filter (lines 278-285). -/
def mismatchFilter (r : ComparisonRow) : Bool :=
  r.STATUS_TABLE_NAME == "FAIL" || r.STATUS_COLUMN_NAME == "FAIL" ||
  r.STATUS_DATA_TYPE == "FAIL" || r.STATUS_CHARACTER_MAXIMUM_LENGTH == "FAIL" ||
  r.STATUS_SCALE == "FAIL" || r.STATUS_PRECISION == "FAIL"

/-- The whole pipeline of `main` (lines 21-289): assemble all rows, order them,
and keep only rows with at least one FAIL verdict. -/
def main (src tgt : Catalog) : List ComparisonRow :=
  (orderRows (runComparison src tgt)).filter mismatchFilter

/-- A data type that survives stringification: present, nonempty, and not the
literal sentinel text. -/
def dataTypePresent : Option String → Bool
  | some s => s != "" && s != "NULL"
  | none => false

/-- The output record assembled for the reconciled column name "NULL" of one
table pair. -/
def nullNameRow (src tgt : Catalog) (t : String) : ComparisonRow :=
  assembleRow (resolveTable src.tables t) (resolveTable tgt.tables t)
    (tableStatus (resolveTable src.tables t) (resolveTable tgt.tables t))
    (sideDict src (resolveTable src.tables t)) (sideDict tgt (resolveTable tgt.tables t)) "NULL"

/-- Sample source catalog: one table with a regular column and an audit
column. -/
def srcSample : Catalog :=
  { tables := ["T"]
    columns := fun t =>
      if t = "T" then
        [{ COLUMN_NAME := "ID", DATA_TYPE := some "NUMBER", NUMERIC_SCALE := some 0,
           NUMERIC_PRECISION := some 38, CHARACTER_MAXIMUM_LENGTH := none },
         { COLUMN_NAME := "CREATED_AT", DATA_TYPE := some "TIMESTAMP_NTZ", NUMERIC_SCALE := none,
           NUMERIC_PRECISION := none, CHARACTER_MAXIMUM_LENGTH := none }]
      else [] }

/-- Sample target catalog: empty. -/
def tgtSample : Catalog := { tables := [], columns := fun _ => [] }

/-- The row the pipeline assembles for column "ID" of table "T" of the
sample catalogs. -/
def rowSample : ComparisonRow :=
  assembleRow (resolveTable srcSample.tables "T") (resolveTable tgtSample.tables "T")
    (tableStatus (resolveTable srcSample.tables "T") (resolveTable tgtSample.tables "T"))
    (sideDict srcSample (resolveTable srcSample.tables "T"))
    (sideDict tgtSample (resolveTable tgtSample.tables "T")) "ID"

/-- Source catalog whose only table carries only audit columns. -/
def srcAudit : Catalog :=
  { tables := ["AUDIT_ONLY"]
    columns := fun t =>
      if t = "AUDIT_ONLY" then
        [{ COLUMN_NAME := "CREATED_AT", DATA_TYPE := some "TIMESTAMP_NTZ", NUMERIC_SCALE := none,
           NUMERIC_PRECISION := none, CHARACTER_MAXIMUM_LENGTH := none },
         { COLUMN_NAME := "UPDATED_BY", DATA_TYPE := some "TEXT", NUMERIC_SCALE := none,
           NUMERIC_PRECISION := none, CHARACTER_MAXIMUM_LENGTH := some 64 }]
      else [] }

/-- Target catalog for the audit-only scenario: empty. -/
def tgtAudit : Catalog := { tables := [], columns := fun _ => [] }

/-- Source catalog with a column literally named "NULL". -/
def srcNull : Catalog :=
  { tables := ["N"]
    columns := fun t =>
      if t = "N" then
        [{ COLUMN_NAME := "NULL", DATA_TYPE := some "TEXT", NUMERIC_SCALE := none,
           NUMERIC_PRECISION := none, CHARACTER_MAXIMUM_LENGTH := some 5 }]
      else [] }

/-- Target catalog with the same "NULL"-named column. -/
def tgtNull : Catalog :=
  { tables := ["N"]
    columns := fun t =>
      if t = "N" then
        [{ COLUMN_NAME := "NULL", DATA_TYPE := some "TEXT", NUMERIC_SCALE := none,
           NUMERIC_PRECISION := none, CHARACTER_MAXIMUM_LENGTH := some 5 }]
      else [] }

/-!
Decoding the decimal string representation: the comparators of the script
compare stringified values, so reasoning about them needs that `Nat.repr` is
invertible (and in particular never collides with the sentinel).
-/

/-- Decimal value of a digit character. -/
def digitVal (c : Char) : Nat := c.toNat - 48

/-- Decode a most-significant-first digit string back into a number. -/
def decodeDigits (l : List Char) : Nat :=
  l.foldl (fun a c => 10 * a + digitVal c) 0

lemma toDigitsCore_append (fuel : Nat) :
    ∀ (n : Nat) (ds : List Char), n < fuel →
      Nat.toDigitsCore 10 fuel n ds = Nat.toDigitsCore 10 fuel n [] ++ ds := by
  induction fuel with
  | zero => intro n ds h; omega
  | succ fuel ih =>
    intro n ds _
    by_cases h10 : n / 10 = 0
    · simp [Nat.toDigitsCore, h10]
    · have hn : 0 < n := by
        rcases Nat.eq_zero_or_pos n with h0 | h0
        · subst h0; simp at h10
        · exact h0
      have hlt : n / 10 < fuel := by
        have := Nat.div_lt_self hn (by omega : 1 < 10)
        omega
      simp only [Nat.toDigitsCore, h10, if_false]
      rw [ih (n / 10) ((n % 10).digitChar :: ds) hlt,
          ih (n / 10) [(n % 10).digitChar] hlt, List.append_assoc]
      simp

lemma toDigitsCore_fuel (n : Nat) :
    ∀ (fuel1 fuel2 : Nat), n < fuel1 → n < fuel2 →
      Nat.toDigitsCore 10 fuel1 n [] = Nat.toDigitsCore 10 fuel2 n [] := by
  induction n using Nat.strong_induction_on with
  | _ n ih =>
    intro fuel1 fuel2 h1 h2
    match fuel1, fuel2 with
    | f1 + 1, f2 + 1 =>
      by_cases h10 : n / 10 = 0
      · simp [Nat.toDigitsCore, h10]
      · have hn : 0 < n := by
          rcases Nat.eq_zero_or_pos n with h0 | h0
          · subst h0; simp at h10
          · exact h0
        have hdl : n / 10 < n := Nat.div_lt_self hn (by omega : 1 < 10)
        simp only [Nat.toDigitsCore, h10, if_false]
        rw [toDigitsCore_append f1 (n / 10) _ (by omega),
            toDigitsCore_append f2 (n / 10) _ (by omega),
            ih (n / 10) hdl f1 f2 (by omega) (by omega)]

lemma toDigits_small (n : Nat) (h : n / 10 = 0) :
    Nat.toDigits 10 n = [Nat.digitChar n] := by
  have hm : n % 10 = n := by omega
  simp [Nat.toDigits, Nat.toDigitsCore, h, hm]

lemma toDigits_step (n : Nat) (h : ¬ n / 10 = 0) :
    Nat.toDigits 10 n = Nat.toDigits 10 (n / 10) ++ [Nat.digitChar (n % 10)] := by
  have hn : 0 < n := by
    rcases Nat.eq_zero_or_pos n with h0 | h0
    · subst h0; simp at h
    · exact h0
  have hdl : n / 10 < n := Nat.div_lt_self hn (by omega : 1 < 10)
  show Nat.toDigitsCore 10 (n + 1) n [] = _
  simp only [Nat.toDigitsCore, h, if_false]
  rw [toDigitsCore_append n (n / 10) _ (by omega),
      toDigitsCore_fuel (n / 10) n (n / 10 + 1) (by omega) (by omega)]
  rfl

lemma digitVal_digitChar (n : Nat) (h : n < 10) :
    digitVal (Nat.digitChar n) = n := by
  interval_cases n <;> decide

lemma decodeDigits_append (l : List Char) (c : Char) :
    decodeDigits (l ++ [c]) = 10 * decodeDigits l + digitVal c := by
  simp [decodeDigits, List.foldl_append]

lemma decode_toDigits (n : Nat) : decodeDigits (Nat.toDigits 10 n) = n := by
  induction n using Nat.strong_induction_on with
  | _ n ih =>
    by_cases h10 : n / 10 = 0
    · rw [toDigits_small n h10]
      have : n < 10 := by omega
      simp [decodeDigits, digitVal_digitChar n this]
    · have hn : 0 < n := by
        rcases Nat.eq_zero_or_pos n with h0 | h0
        · subst h0; simp at h10
        · exact h0
      have hdl : n / 10 < n := Nat.div_lt_self hn (by omega : 1 < 10)
      rw [toDigits_step n h10, decodeDigits_append, ih (n / 10) hdl,
          digitVal_digitChar (n % 10) (by omega)]
      omega

/-- Round trip: decoding the decimal representation of `n` gives back `n`. -/
lemma decode_repr (n : Nat) : decodeDigits (Nat.repr n).data = n := by
  show decodeDigits (Nat.toDigits 10 n) = n
  exact decode_toDigits n

lemma repr_injective {m n : Nat} (h : Nat.repr m = Nat.repr n) : m = n := by
  rw [← decode_repr m, ← decode_repr n, h]

lemma repr_forces (n : Nat) (s : String) (h : Nat.repr n = s) :
    n = decodeDigits s.data := by
  rw [← decode_repr n, h]

lemma repr_ne_NULL (n : Nat) : Nat.repr n ≠ "NULL" := by
  intro h
  have hn := repr_forces n "NULL" h
  rw [show decodeDigits ("NULL").data = 34008 from by decide] at hn
  rw [hn] at h
  exact absurd h (by decide)

/-!
Helper lemmas about the pipeline, and the claim theorems.
-/

lemma mem_sortStrings {x : String} {l : List String} : x ∈ sortStrings l ↔ x ∈ l :=
  List.mem_mergeSort

lemma mem_tableUnion {x : String} {s t : List String} :
    x ∈ tableUnion s t ↔ x ∈ s ∨ x ∈ t := by
  simp [tableUnion, mem_sortStrings, List.mem_dedup]

lemma dictLookup_some_name {d : List ColumnDescriptor} {cn : String} {c : ColumnDescriptor}
    (h : dictLookup d cn = some c) : c.COLUMN_NAME = cn := by
  have := List.find?_some h
  simpa using this

lemma dictLookup_some_mem {d : List ColumnDescriptor} {cn : String} {c : ColumnDescriptor}
    (h : dictLookup d cn = some c) : c ∈ d := by
  have := List.mem_of_find?_eq_some h
  simpa using this

lemma dictLookup_isSome_of_mem_names {d : List ColumnDescriptor} {cn : String}
    (h : cn ∈ d.map (fun c => c.COLUMN_NAME)) : ∃ c, dictLookup d cn = some c := by
  have hs : (dictLookup d cn).isSome := by
    rw [dictLookup, List.find?_isSome]
    obtain ⟨c, hc, hname⟩ := List.mem_map.1 h
    exact ⟨c, by simpa using hc, by simp [hname]⟩
  obtain ⟨c, hc⟩ := Option.isSome_iff_exists.1 hs
  exact ⟨c, hc⟩

lemma mem_columnsDict_not_excluded {cols : List ColumnDescriptor} {c : ColumnDescriptor}
    (h : c ∈ columnsDict cols) : c.COLUMN_NAME ∉ EXCLUDED_COLUMNS := by
  have := List.of_mem_filter h
  simpa using this

lemma sideDict_lookup_not_excluded {cat : Catalog} {t : Option String} {cn : String}
    {c : ColumnDescriptor} (h : dictLookup (sideDict cat t) cn = some c) :
    c.COLUMN_NAME ∉ EXCLUDED_COLUMNS := by
  match t with
  | some tn => exact mem_columnsDict_not_excluded (dictLookup_some_mem h)
  | none => simp [sideDict, dictLookup] at h

/-- C1: the character-maximum-length comparator is directional in its
tolerance exception: for present lengths, source 16777216 with target 8388607
passes, the reverse pair fails, and any other present pair passes iff the two
values are equal. -/
theorem C1_char_max_length_tolerance_directional :
    status_char_max_length (strOfNatOpt (some 16777216)) (strOfNatOpt (some 8388607)) = "PASS"
    ∧ status_char_max_length (strOfNatOpt (some 8388607)) (strOfNatOpt (some 16777216)) = "FAIL"
    ∧ ∀ a b : Nat, ¬(a = 16777216 ∧ b = 8388607) →
        (status_char_max_length (strOfNatOpt (some a)) (strOfNatOpt (some b)) = "PASS" ↔ a = b) := by
  refine ⟨by decide, by decide, ?_⟩
  intro a b hab
  show status_char_max_length (Nat.repr a) (Nat.repr b) = "PASS" ↔ a = b
  unfold status_char_max_length
  rw [if_pos ⟨repr_ne_NULL a, repr_ne_NULL b⟩]
  by_cases heq : Nat.repr a = Nat.repr b
  · rw [if_pos heq]
    simp [repr_injective heq]
  · have hne : ¬(Nat.repr a = "16777216" ∧ Nat.repr b = "8388607") := by
      rintro ⟨ha, hb⟩
      exact hab ⟨(repr_forces a _ ha).trans (by decide), (repr_forces b _ hb).trans (by decide)⟩
    rw [if_neg heq, if_neg hne]
    constructor
    · intro h; exact absurd h (by decide)
    · intro h; exact absurd (congrArg Nat.repr h) heq

/-- C1 witness: instantiating the universally quantified part at 5 and 7. -/
theorem C1_witness :
    ¬((5 : Nat) = 16777216 ∧ (7 : Nat) = 8388607)
    ∧ (status_char_max_length (strOfNatOpt (some 5)) (strOfNatOpt (some 7)) = "PASS" ↔ (5 : Nat) = 7) :=
  ⟨by decide, C1_char_max_length_tolerance_directional.2.2 5 7 (by decide)⟩

/-- C2 counterexample: both data types are present (the empty string) and
equal, so the claim requires PASS, but the code coerces a present empty string
to the sentinel (Python truthiness on line 170/185) and returns FAIL. -/
theorem C2_counterexample :
    (some "" : Option String) ≠ none
    ∧ status_data_type (strOfDataType (some "")) (strOfDataType (some "")) = "FAIL" :=
  ⟨by decide, by decide⟩

/-- C2 amended: the data-type verdict is FAIL when either side is absent,
empty, or the literal string "NULL"; otherwise it is PASS iff the two strings
are equal under case-sensitive exact comparison. -/
theorem C2_data_type_rule (d1 d2 : Option String) :
    status_data_type (strOfDataType d1) (strOfDataType d2) =
      if dataTypePresent d1 ∧ dataTypePresent d2 then
        if d1 = d2 then "PASS" else "FAIL"
      else "FAIL" := by
  cases d1 with
  | none => cases d2 <;> simp [status_data_type, strOfDataType, dataTypePresent]
  | some s1 =>
    cases d2 with
    | none => simp [status_data_type, strOfDataType, dataTypePresent]
    | some s2 =>
      by_cases h1 : s1 = "" <;> by_cases h2 : s2 = "" <;>
        by_cases hN1 : s1 = "NULL" <;> by_cases hN2 : s2 = "NULL" <;>
        simp_all [status_data_type, strOfDataType, dataTypePresent]

/-- C3: scale and precision follow the same rule; the verdict is PASS when
both sides are absent, FAIL when exactly one is absent, and otherwise PASS
iff the two values are equal. -/
theorem C3_scale_precision_rule (a b : Option Nat) :
    status_scale (strOfNatOpt a) (strOfNatOpt b)
        = status_precision (strOfNatOpt a) (strOfNatOpt b)
    ∧ status_scale (strOfNatOpt a) (strOfNatOpt b) =
        match a, b with
        | none, none => "PASS"
        | some x, some y => if x = y then "PASS" else "FAIL"
        | _, _ => "FAIL" := by
  refine ⟨rfl, ?_⟩
  cases a with
  | none => cases b <;> simp [status_scale, strOfNatOpt, repr_ne_NULL]
  | some x =>
    cases b with
    | none => simp [status_scale, strOfNatOpt, repr_ne_NULL]
    | some y =>
      show status_scale (Nat.repr x) (Nat.repr y) = _
      unfold status_scale
      rw [if_pos ⟨repr_ne_NULL x, repr_ne_NULL y⟩]
      by_cases h : x = y
      · subst h; simp
      · rw [if_neg (fun hc => h (repr_injective hc))]
        simp [h]

/-- C8 counterexample: the data type `some ""` is present, not absent, yet its
stringification is the sentinel. -/
theorem C8_counterexample :
    (some "" : Option String) ≠ none ∧ strOfDataType (some "") = "NULL" :=
  ⟨by decide, rfl⟩

/-- C8 amended: numeric attributes are never coerced to the sentinel (a
present zero stringifies to "0" and is compared as its own value), but the
data type is coerced to the sentinel when it is present and empty; any
present nonempty data type is kept verbatim. -/
theorem C8_stringification_rule (n : Nat) (s : String) (h : s ≠ "") :
    strOfNatOpt (some n) ≠ "NULL"
    ∧ strOfNatOpt (some 0) = "0"
    ∧ status_scale (strOfNatOpt (some 0)) (strOfNatOpt none) = "FAIL"
    ∧ status_scale (strOfNatOpt (some 0)) (strOfNatOpt (some 0)) = "PASS"
    ∧ strOfDataType (some s) = s
    ∧ strOfDataType (some "") = "NULL" := by
  refine ⟨repr_ne_NULL n, by decide, by decide, by decide, ?_, rfl⟩
  simp [strOfDataType, h]

/-- C8 witness: the amended stringification rule at concrete inputs. -/
theorem C8_witness :
    ("TEXT" : String) ≠ ""
    ∧ (strOfNatOpt (some 3) ≠ "NULL"
      ∧ strOfNatOpt (some 0) = "0"
      ∧ status_scale (strOfNatOpt (some 0)) (strOfNatOpt none) = "FAIL"
      ∧ status_scale (strOfNatOpt (some 0)) (strOfNatOpt (some 0)) = "PASS"
      ∧ strOfDataType (some "TEXT") = "TEXT"
      ∧ strOfDataType (some "") = "NULL") :=
  ⟨by decide, C8_stringification_rule 3 "TEXT" (by decide)⟩

/-- C10: when a table present on both sides has a column actually named
"NULL" on both sides, the emitted row for that column records two equal
names but still gets STATUS_COLUMN_NAME = FAIL, because the recorded name
collides with the absence sentinel in the verdict check. -/
theorem C10_null_column_name_collision (src tgt : Catalog) (t : String)
    (h1 : t ∈ src.tables) (h2 : t ∈ tgt.tables)
    (hc1 : "NULL" ∈ (columnsDict (src.columns t)).map (fun c => c.COLUMN_NAME))
    (hc2 : "NULL" ∈ (columnsDict (tgt.columns t)).map (fun c => c.COLUMN_NAME)) :
    nullNameRow src tgt t ∈ tableRows src tgt t
    ∧ (nullNameRow src tgt t).SOURCE_COLUMN_NAME = (nullNameRow src tgt t).TARGET_COLUMN_NAME
    ∧ (nullNameRow src tgt t).STATUS_COLUMN_NAME = "FAIL" := by
  have e1 : resolveTable src.tables t = some t := by
    rw [resolveTable, if_pos (by simpa using h1)]
  have e2 : resolveTable tgt.tables t = some t := by
    rw [resolveTable, if_pos (by simpa using h2)]
  have hd1 : sideDict src (resolveTable src.tables t) = columnsDict (src.columns t) := by
    rw [e1]; rfl
  have hd2 : sideDict tgt (resolveTable tgt.tables t) = columnsDict (tgt.columns t) := by
    rw [e2]; rfl
  obtain ⟨c1, hc1s⟩ := dictLookup_isSome_of_mem_names (d := columnsDict (src.columns t)) hc1
  obtain ⟨c2, hc2s⟩ := dictLookup_isSome_of_mem_names (d := columnsDict (tgt.columns t)) hc2
  refine ⟨?_, ?_, ?_⟩
  · show nullNameRow src tgt t ∈ tableRows src tgt t
    rw [tableRows]
    apply List.mem_map_of_mem
    rw [hd1, hd2]
    rw [allColumns, mem_sortStrings, List.mem_dedup]
    exact List.mem_append_left _ hc1
  · rw [nullNameRow, assembleRow, hd1, hd2, hc1s, hc2s]
    simp [sideStrings, dictLookup_some_name hc1s, dictLookup_some_name hc2s]
  · rw [nullNameRow, assembleRow, hd1, hd2, hc1s, hc2s]
    simp only [sideStrings, dictLookup_some_name hc1s, dictLookup_some_name hc2s]
    decide

lemma mem_main_iff {src tgt : Catalog} {r : ComparisonRow} :
    r ∈ main src tgt ↔ r ∈ runComparison src tgt ∧ mismatchFilter r = true := by
  rw [main, orderRows, List.mem_filter, List.mem_mergeSort]

lemma mem_runComparison_iff {src tgt : Catalog} {r : ComparisonRow} :
    r ∈ runComparison src tgt ↔
      ∃ t, (t ∈ src.tables ∨ t ∈ tgt.tables) ∧ r ∈ tableRows src tgt t := by
  rw [runComparison, List.mem_flatMap]
  constructor
  · rintro ⟨t, ht, hr⟩
    exact ⟨t, mem_tableUnion.1 ht, hr⟩
  · rintro ⟨t, ht, hr⟩
    exact ⟨t, mem_tableUnion.2 ht, hr⟩

/-- C4: for every table name in the union of the two table-name sets, the
table verdict is PASS iff the table is present on both sides, and every row
emitted for that table carries this verdict. -/
theorem C4_table_name_verdict (src tgt : Catalog) (name : String)
    (h : name ∈ tableUnion src.tables tgt.tables) :
    tableStatus (resolveTable src.tables name) (resolveTable tgt.tables name) =
      (if name ∈ src.tables ∧ name ∈ tgt.tables then "PASS" else "FAIL")
    ∧ ∀ r ∈ tableRows src tgt name, r.STATUS_TABLE_NAME =
        (if name ∈ src.tables ∧ name ∈ tgt.tables then "PASS" else "FAIL") := by
  have hu := mem_tableUnion.1 h
  have hstat : tableStatus (resolveTable src.tables name) (resolveTable tgt.tables name) =
      (if name ∈ src.tables ∧ name ∈ tgt.tables then "PASS" else "FAIL") := by
    by_cases hs : name ∈ src.tables <;> by_cases ht : name ∈ tgt.tables
    · rw [resolveTable, if_pos (by simpa using hs), resolveTable, if_pos (by simpa using ht)]
      simp [tableStatus, hs, ht]
    · rw [resolveTable, if_pos (by simpa using hs), resolveTable, if_neg (by simpa using ht)]
      simp [tableStatus, hs, ht]
    · rw [resolveTable, if_neg (by simpa using hs), resolveTable, if_pos (by simpa using ht)]
      simp [tableStatus, hs, ht]
    · rcases hu with hmem | hmem
      · exact absurd hmem hs
      · exact absurd hmem ht
  refine ⟨hstat, ?_⟩
  intro r hr
  simp only [tableRows] at hr
  obtain ⟨cn, -, rfl⟩ := List.mem_map.1 hr
  exact hstat

/-- C5: a row of the full assembled comparison set appears in the final
report iff at least one of its six verdicts is FAIL; an all-PASS row never
appears. -/
theorem C5_filter_completeness (src tgt : Catalog) (r : ComparisonRow)
    (h : r ∈ runComparison src tgt) :
    (r ∈ main src tgt ↔
      (r.STATUS_TABLE_NAME = "FAIL" ∨ r.STATUS_COLUMN_NAME = "FAIL" ∨
       r.STATUS_DATA_TYPE = "FAIL" ∨ r.STATUS_CHARACTER_MAXIMUM_LENGTH = "FAIL" ∨
       r.STATUS_SCALE = "FAIL" ∨ r.STATUS_PRECISION = "FAIL"))
    ∧ ((r.STATUS_TABLE_NAME = "PASS" ∧ r.STATUS_COLUMN_NAME = "PASS" ∧
        r.STATUS_DATA_TYPE = "PASS" ∧ r.STATUS_CHARACTER_MAXIMUM_LENGTH = "PASS" ∧
        r.STATUS_SCALE = "PASS" ∧ r.STATUS_PRECISION = "PASS") → r ∉ main src tgt) := by
  have hiff : r ∈ main src tgt ↔ mismatchFilter r = true := by
    rw [mem_main_iff]
    simp [h]
  constructor
  · rw [hiff]
    simp [mismatchFilter, or_assoc]
  · rintro ⟨h1, h2, h3, h4, h5, h6⟩ hmem
    rw [hiff] at hmem
    simp [mismatchFilter, h1, h2, h3, h4, h5, h6] at hmem

/-- C6: no output row of the final report references an excluded audit
column on either side. -/
theorem C6_excluded_never_referenced (src tgt : Catalog) (r : ComparisonRow) (c : String)
    (hc : c ∈ EXCLUDED_COLUMNS) (hr : r ∈ main src tgt) :
    r.SOURCE_COLUMN_NAME ≠ c ∧ r.TARGET_COLUMN_NAME ≠ c := by
  have hnull : ("NULL" : String) ∉ EXCLUDED_COLUMNS := by decide
  obtain ⟨hrun, -⟩ := mem_main_iff.1 hr
  obtain ⟨t, -, hrow⟩ := mem_runComparison_iff.1 hrun
  simp only [tableRows] at hrow
  obtain ⟨cn, -, rfl⟩ := List.mem_map.1 hrow
  constructor
  · show (sideStrings (dictLookup (sideDict src (resolveTable src.tables t)) cn)).column_name ≠ c
    cases hl : dictLookup (sideDict src (resolveTable src.tables t)) cn with
    | none =>
      show ("NULL" : String) ≠ c
      intro hcc
      rw [← hcc] at hc
      exact hnull hc
    | some col =>
      show col.COLUMN_NAME ≠ c
      intro hcc
      exact sideDict_lookup_not_excluded hl (by rw [hcc]; exact hc)
  · show (sideStrings (dictLookup (sideDict tgt (resolveTable tgt.tables t)) cn)).column_name ≠ c
    cases hl : dictLookup (sideDict tgt (resolveTable tgt.tables t)) cn with
    | none =>
      show ("NULL" : String) ≠ c
      intro hcc
      rw [← hcc] at hc
      exact hnull hc
    | some col =>
      show col.COLUMN_NAME ≠ c
      intro hcc
      exact sideDict_lookup_not_excluded hl (by rw [hcc]; exact hc)

lemma sortStrings_nodup {l : List String} (h : l.Nodup) : (sortStrings l).Nodup :=
  ((List.mergeSort_perm l _).nodup_iff).mpr h

/-- C7: a table present only in the source yields exactly one row per
distinct non-excluded column name (the row names are exactly the sorted
distinct names, without duplicates), each with a FAIL table verdict, source
fields taken from the source descriptor, and every target-side value equal
to the sentinel. -/
theorem C7_source_only_table (src tgt : Catalog) (t : String)
    (h1 : t ∈ src.tables) (h2 : t ∉ tgt.tables) :
    ((tableRows src tgt t).map (fun r => r.SOURCE_COLUMN_NAME) =
        sortStrings (((columnsDict (src.columns t)).map (fun c => c.COLUMN_NAME)).dedup)
      ∧ ((tableRows src tgt t).map (fun r => r.SOURCE_COLUMN_NAME)).Nodup)
    ∧ ∀ r ∈ tableRows src tgt t,
        r.STATUS_TABLE_NAME = "FAIL"
        ∧ r.SOURCE_TABLE_NAME = t
        ∧ r.TARGET_TABLE_NAME = "NULL" ∧ r.TARGET_COLUMN_NAME = "NULL"
        ∧ r.TARGET_DATA_TYPE = "NULL" ∧ r.TARGET_CHARACTER_MAXIMUM_LENGTH = "NULL"
        ∧ r.TARGET_SCALE = "NULL" ∧ r.TARGET_PRECISION = "NULL"
        ∧ ∃ c ∈ columnsDict (src.columns t),
            c.COLUMN_NAME = r.SOURCE_COLUMN_NAME
            ∧ r.SOURCE_DATA_TYPE = strOfDataType c.DATA_TYPE
            ∧ r.SOURCE_CHARACTER_MAXIMUM_LENGTH = strOfNatOpt c.CHARACTER_MAXIMUM_LENGTH
            ∧ r.SOURCE_SCALE = strOfNatOpt c.NUMERIC_SCALE
            ∧ r.SOURCE_PRECISION = strOfNatOpt c.NUMERIC_PRECISION := by
  have e1 : resolveTable src.tables t = some t := by
    rw [resolveTable, if_pos (by simpa using h1)]
  have e2 : resolveTable tgt.tables t = none := by
    rw [resolveTable, if_neg (by simpa using h2)]
  have hcols : allColumns (sideDict src (some t)) (sideDict tgt none) =
      sortStrings (((columnsDict (src.columns t)).map (fun c => c.COLUMN_NAME)).dedup) := by
    simp [allColumns, sideDict]
  have hname : ∀ cn ∈ allColumns (sideDict src (some t)) (sideDict tgt none),
      ∃ c, dictLookup (sideDict src (some t)) cn = some c ∧ c.COLUMN_NAME = cn := by
    intro cn hcn
    rw [hcols, mem_sortStrings, List.mem_dedup] at hcn
    obtain ⟨c, hc⟩ := dictLookup_isSome_of_mem_names (d := sideDict src (some t)) (by
      simpa [sideDict] using hcn)
    exact ⟨c, hc, dictLookup_some_name hc⟩
  have hmapeq : (tableRows src tgt t).map (fun r => r.SOURCE_COLUMN_NAME) =
      sortStrings (((columnsDict (src.columns t)).map (fun c => c.COLUMN_NAME)).dedup) := by
    simp only [tableRows, e1, e2, List.map_map]
    rw [← hcols]
    refine (List.map_congr_left ?_).trans (List.map_id _)
    intro cn hcn
    obtain ⟨c, hc, hcname⟩ := hname cn hcn
    show (sideStrings (dictLookup (sideDict src (some t)) cn)).column_name = cn
    rw [hc]
    exact hcname
  refine ⟨⟨hmapeq, ?_⟩, ?_⟩
  · rw [hmapeq]
    exact sortStrings_nodup (List.nodup_dedup _)
  · intro r hr
    simp only [tableRows, e1, e2] at hr
    obtain ⟨cn, hcn, rfl⟩ := List.mem_map.1 hr
    obtain ⟨c, hc, hcname⟩ := hname cn hcn
    refine ⟨by simp [assembleRow, tableStatus], rfl, rfl, rfl, rfl, rfl, rfl, rfl,
      c, dictLookup_some_mem (by simpa [sideDict] using hc), ?_, ?_, ?_, ?_, ?_⟩
    · show c.COLUMN_NAME = (sideStrings (dictLookup (sideDict src (some t)) cn)).column_name
      rw [hc]
      rfl
    · show (sideStrings (dictLookup (sideDict src (some t)) cn)).data_type = _
      rw [hc]
      rfl
    · show (sideStrings (dictLookup (sideDict src (some t)) cn)).char_max_length = _
      rw [hc]
      rfl
    · show (sideStrings (dictLookup (sideDict src (some t)) cn)).scale = _
      rw [hc]
      rfl
    · show (sideStrings (dictLookup (sideDict src (some t)) cn)).precision = _
      rw [hc]
      rfl

lemma flatMap_filter_ne {α β : Type} [DecidableEq α] (u : List α) (f : α → List β) (t : α)
    (h : f t = []) : u.flatMap f = (u.filter (fun x => x != t)).flatMap f := by
  induction u with
  | nil => rfl
  | cons x u ih =>
    by_cases hx : x = t
    · subst hx
      simp [List.flatMap_cons, h, ih, List.filter_cons]
    · simp [List.flatMap_cons, List.filter_cons, hx, ih]

/-- C9: a table present on exactly one side whose filtered column set is
empty produces zero rows, so nothing about it (in particular its FAIL table
verdict) reaches the final report: the whole pipeline is unchanged if the
table is removed from the iterated union. -/
theorem C9_empty_one_sided_table (src tgt : Catalog) (t : String)
    (h : (t ∈ src.tables ∧ t ∉ tgt.tables ∧ columnsDict (src.columns t) = [])
       ∨ (t ∉ src.tables ∧ t ∈ tgt.tables ∧ columnsDict (tgt.columns t) = [])) :
    tableRows src tgt t = []
    ∧ main src tgt =
        (orderRows (((tableUnion src.tables tgt.tables).filter (fun x => x != t)).flatMap
          (tableRows src tgt))).filter mismatchFilter := by
  have hrows : tableRows src tgt t = [] := by
    rcases h with ⟨hs, ht, hcols⟩ | ⟨hs, ht, hcols⟩
    · have e1 : resolveTable src.tables t = some t := by
        rw [resolveTable, if_pos (by simpa using hs)]
      have e2 : resolveTable tgt.tables t = none := by
        rw [resolveTable, if_neg (by simpa using ht)]
      simp [tableRows, e1, e2, sideDict, hcols, allColumns, sortStrings]
    · have e1 : resolveTable src.tables t = none := by
        rw [resolveTable, if_neg (by simpa using hs)]
      have e2 : resolveTable tgt.tables t = some t := by
        rw [resolveTable, if_pos (by simpa using ht)]
      simp [tableRows, e1, e2, sideDict, hcols, allColumns, sortStrings]
  refine ⟨hrows, ?_⟩
  rw [main, runComparison, flatMap_filter_ne _ _ t hrows]

lemma rowSample_mem : rowSample ∈ runComparison srcSample tgtSample := by
  rw [runComparison]
  refine List.mem_flatMap_of_mem
    (mem_tableUnion.mpr (Or.inl (show ("T" : String) ∈ srcSample.tables by decide))) ?_
  simp only [tableRows]
  refine List.mem_map.mpr ⟨"ID", ?_, rfl⟩
  rw [allColumns, mem_sortStrings, List.mem_dedup]
  decide

lemma rowSample_mem_main : rowSample ∈ main srcSample tgtSample :=
  mem_main_iff.mpr ⟨rowSample_mem, by decide⟩

/-- C4 witness: the table verdict for the sample table, which is present
only in the source. -/
theorem C4_witness :
    tableStatus (resolveTable srcSample.tables "T") (resolveTable tgtSample.tables "T") =
      (if "T" ∈ srcSample.tables ∧ "T" ∈ tgtSample.tables then "PASS" else "FAIL") :=
  (C4_table_name_verdict srcSample tgtSample "T" (mem_tableUnion.mpr (Or.inl (by decide)))).1

/-- C5 witness: membership of the sample row in the final report is
equivalent to one of its verdicts being FAIL. -/
theorem C5_witness :
    rowSample ∈ main srcSample tgtSample ↔
      (rowSample.STATUS_TABLE_NAME = "FAIL" ∨ rowSample.STATUS_COLUMN_NAME = "FAIL" ∨
       rowSample.STATUS_DATA_TYPE = "FAIL" ∨ rowSample.STATUS_CHARACTER_MAXIMUM_LENGTH = "FAIL" ∨
       rowSample.STATUS_SCALE = "FAIL" ∨ rowSample.STATUS_PRECISION = "FAIL") :=
  (C5_filter_completeness srcSample tgtSample rowSample rowSample_mem).1

/-- C6 witness: the sample report row does not reference the excluded
audit column on either side. -/
theorem C6_witness :
    rowSample.SOURCE_COLUMN_NAME ≠ "CREATED_AT" ∧ rowSample.TARGET_COLUMN_NAME ≠ "CREATED_AT" :=
  C6_excluded_never_referenced srcSample tgtSample rowSample "CREATED_AT" (by decide)
    rowSample_mem_main

/-- C7 witness: the rows of the source-only sample table list exactly its
non-excluded column names. -/
theorem C7_witness :
    (tableRows srcSample tgtSample "T").map (fun r => r.SOURCE_COLUMN_NAME) =
      sortStrings (((columnsDict (srcSample.columns "T")).map (fun c => c.COLUMN_NAME)).dedup)
    ∧ ((tableRows srcSample tgtSample "T").map (fun r => r.SOURCE_COLUMN_NAME)).Nodup :=
  (C7_source_only_table srcSample tgtSample "T" (by decide) (by decide)).1

/-- C9 witness: the audit-only source table emits zero rows. -/
theorem C9_witness : tableRows srcAudit tgtAudit "AUDIT_ONLY" = [] :=
  (C9_empty_one_sided_table srcAudit tgtAudit "AUDIT_ONLY"
    (Or.inl ⟨by decide, by decide, by decide⟩)).1

/-- C10 witness: the sentinel-named column of the sample pair yields a row
with equal recorded names and a FAIL column verdict. -/
theorem C10_witness :
    nullNameRow srcNull tgtNull "N" ∈ tableRows srcNull tgtNull "N"
    ∧ (nullNameRow srcNull tgtNull "N").SOURCE_COLUMN_NAME =
        (nullNameRow srcNull tgtNull "N").TARGET_COLUMN_NAME
    ∧ (nullNameRow srcNull tgtNull "N").STATUS_COLUMN_NAME = "FAIL" :=
  C10_null_column_name_collision srcNull tgtNull "N" (by decide) (by decide)
    (by decide) (by decide)

end SchemaValidator
